import Mathlib

set_option autoImplicit false

/-!
Shallow embedding of `src/kiauh/utils/sudo_session.py` (class `SudoSession`).

The Python class caches sudo credentials: `ensure_active` prompts once for
consent, primes the credential cache with `sudo -v`, selects a refresh
command (preferring the non-interactive probe `sudo -n -v`) and starts a
background refresh thread; `close` stops the thread, revokes the cached
timestamp with `sudo -k` and resets part of the in-memory state.

External collaborators (the `sudo` binary, the consent prompt, the logger)
are modelled as explicit inputs; the observable side effects (prompts,
subprocess invocations, warnings, thread starts) are returned as explicit
effect records.  Strings are Lean `String`, lowercasing is ASCII
`Char.toLower` applied characterwise (the patterns matched are pure ASCII,
so this agrees with Python `str.lower()` on every relevant input), and
Python substring containment (`x in y`) is an explicit character-list
scan defined below.
-/

/-- Does the first list occur at the head of the second? (needle, haystack) -/
def startsWithChars : List Char → List Char → Bool
  | [], _ => true
  | _ :: _, [] => false
  | n :: ns, h :: hs => (n == h) && startsWithChars ns hs

/-- Does the needle occur contiguously anywhere in the haystack? -/
def occursIn (needle : List Char) : List Char → Bool
  | [] => needle.isEmpty
  | h :: hs => startsWithChars needle (h :: hs) || occursIn needle hs

/-- Python `needle in haystack` on strings. -/
def strContains (haystack needle : String) : Bool :=
  occursIn needle.toList haystack.toList

/-- Python `s.lower()` (ASCII; the matched patterns are ASCII). -/
def strLower (s : String) : String :=
  String.mk (s.toList.map Char.toLower)

/-- Result of `subprocess.run(..., stderr=PIPE, text=True)`: exit code and
captured standard error. -/
structure RunResult where
  returncode : Int
  stderr : String
deriving Repr, DecidableEq

/-- Outcome of the `get_confirm` consent prompt.  Modelled from the spec:
the confirmation-prompt collaborator is not part of the sources under
`src/`; per the spec it "returns a boolean (or cancels via interrupt)",
so its outcome space is yes / no / KeyboardInterrupt raised. -/
inductive ConsentOutcome
  | yes
  | no
  | interrupted
deriving Repr, DecidableEq

/-- The in-memory state of a `SudoSession` object.  `thread_obj` models
`self._thread is not None`; `live_tasks` counts the started refresh
threads that have not yet terminated, so `self._thread.is_alive()` is
`live_tasks ≠ 0`. -/
structure SudoSession where
  refresh_interval : Nat
  prompted : Bool
  enabled : Bool
  stop_event : Bool
  thread_obj : Bool
  live_tasks : Nat
  refresh_cmd : Option (List String)
deriving Repr, DecidableEq

/-- `SudoSession.__init__(refresh_interval=60)`. -/
def SudoSession.init (interval : Nat) : SudoSession :=
  { refresh_interval := interval
    prompted := false
    enabled := false
    stop_event := false
    thread_obj := false
    live_tasks := 0
    refresh_cmd := some ["sudo", "-n", "-v"] }

/-- `SudoSession._is_option_unsupported`: false for `None` and the empty
string (Python `if not stderr`), otherwise substring search for the two
signatures in the lowercased text. -/
def SudoSession.is_option_unsupported (stderr : Option String) : Bool :=
  match stderr with
  | none => false
  | some s =>
    if s = "" then false
    else
      let stderr_lower := strLower s
      strContains stderr_lower "unrecognized option" ||
        strContains stderr_lower "invalid option"

/-- The `for cmd in candidates` loop of `_select_refresh_command`:
returns the selected command (if any) and the list of commands actually
executed, in order.  A zero exit selects the candidate; a failure whose
stderr lacks the unsupported-option signature breaks out of the loop;
otherwise the next candidate is tried.  Falling out of the loop yields
`None`. -/
def SudoSession.select_go (run : List String → RunResult) :
    List (List String) → Option (List String) × List (List String)
  | [] => (none, [])
  | cmd :: rest =>
    let result := run cmd
    if result.returncode = 0 then (some cmd, [cmd])
    else if SudoSession.is_option_unsupported (some result.stderr) = false then
      (none, [cmd])
    else
      let r := SudoSession.select_go run rest
      (r.1, cmd :: r.2)

/-- `SudoSession._select_refresh_command` with its candidate list. -/
def SudoSession.select_refresh_command (run : List String → RunResult) :
    Option (List String) × List (List String) :=
  SudoSession.select_go run [["sudo", "-n", "-v"], ["sudo", "-v"]]

/-- The collaborator outcomes one call to `ensure_active` can observe:
whether `shutil.which("sudo")` finds the tool, the consent prompt
outcome, the priming `subprocess.run(["sudo", "-v"])` outcome (`none`
models a KeyboardInterrupt raised during the call, which the code
catches), and the results of the trial runs made by
`_select_refresh_command`. -/
structure EnsureEnv where
  sudo_present : Bool
  consent : ConsentOutcome
  priming : Option RunResult
  select_run : List String → RunResult

/-- Observable side effects of one `ensure_active` call: consent prompts
issued, priming subprocess invocations, the commands run while selecting
a refresh command, warnings logged, and whether a refresh thread was
started. -/
structure EnsureEffects where
  prompts : Nat
  priming_runs : Nat
  select_runs : List (List String)
  warns : Nat
  started : Bool
deriving Repr, DecidableEq

/-- Result of one `ensure_active` call: the new object state, the
effects, and whether an exception escaped to the caller (`raised`). -/
structure EnsureResult where
  state : SudoSession
  eff : EnsureEffects
  raised : Bool
deriving Repr, DecidableEq

/-- `SudoSession.ensure_active`.  Mirrors the source line by line:
the prompted-once guard, `shutil.which` check, consent prompt (a
KeyboardInterrupt there is NOT caught - only the priming subprocess call
sits inside the `try`), priming with its caught interrupt and its
non-zero-exit warning, then enabling, refresh-command selection and
thread start. -/
def SudoSession.ensure_active (env : EnsureEnv) (s : SudoSession) : EnsureResult :=
  if s.prompted then ⟨s, ⟨0, 0, [], 0, false⟩, false⟩
  else
    let s1 := { s with prompted := true }
    if env.sudo_present = false then ⟨s1, ⟨0, 0, [], 0, false⟩, false⟩
    else
      match env.consent with
      | ConsentOutcome.interrupted => ⟨s1, ⟨1, 0, [], 0, false⟩, true⟩
      | ConsentOutcome.no => ⟨s1, ⟨1, 0, [], 0, false⟩, false⟩
      | ConsentOutcome.yes =>
        match env.priming with
        | none => ⟨s1, ⟨1, 1, [], 1, false⟩, false⟩
        | some result =>
          if result.returncode ≠ 0 then ⟨s1, ⟨1, 1, [], 1, false⟩, false⟩
          else
            let s2 := { s1 with enabled := true }
            let sel := SudoSession.select_refresh_command env.select_run
            let s3 := { s2 with refresh_cmd := sel.1 }
            match sel.1 with
            | none => ⟨s3, ⟨1, 1, sel.2, 1, false⟩, false⟩
            | some _ =>
              ⟨{ s3 with thread_obj := true, live_tasks := s3.live_tasks + 1 },
                ⟨1, 1, sel.2, 0, true⟩, false⟩

/-- Observable side effects of one `close` call: `sudo -k` revocation
invocations and whether the thread was signalled and joined. -/
structure CloseEffects where
  revokes : Nat
  joined : Bool
deriving Repr, DecidableEq

/-- `SudoSession.close`.  No-op when the tool is absent; otherwise stop
and join a live thread, revoke if enabled, then reset `_thread`,
`_enabled` and the stop event (and nothing else). -/
def SudoSession.close (sudo_present : Bool) (s : SudoSession) :
    SudoSession × CloseEffects :=
  if sudo_present = false then (s, ⟨0, false⟩)
  else
    let doJoin := s.thread_obj && s.live_tasks != 0
    let s1 :=
      if doJoin then { s with stop_event := true, live_tasks := s.live_tasks - 1 }
      else s
    let revokes := if s1.enabled then 1 else 0
    ({ s1 with thread_obj := false, enabled := false, stop_event := false },
      ⟨revokes, doJoin⟩)

/-- One wake-up of the refresh loop: whether `stop_event.wait(interval)`
reported the stop signal, and the result the refresh subprocess would
produce for a given command. -/
structure TickInput where
  stopped : Bool
  run : List String → RunResult

/-- How a finite run of the refresh loop ended, if it ended. -/
inductive LoopExit
  | cancelled
  | expired
deriving Repr, DecidableEq

/-- Observable effects of a refresh-loop run: refresh commands executed
in order, warnings logged, and how many times the in-loop fallback to
`sudo -v` fired. -/
structure LoopEffects where
  runs : List (List String)
  warns : Nat
  fallbacks : Nat
deriving Repr, DecidableEq

/-- Result of running the refresh loop on a finite list of tick inputs:
final selected command, whether the loop wrote `enabled = False`, the
effects, and the exit reason (`none` = inputs exhausted, still running). -/
structure LoopResult where
  refresh_cmd : List String
  disabled : Bool
  eff : LoopEffects
  exit : Option LoopExit
deriving Repr, DecidableEq

/-- The `while not self._stop_event.wait(...)` body of
`SudoSession._refresh_loop`, run over a finite list of tick inputs.
Exit code 0 continues; a failure with the unsupported-option signature
while not already on `sudo -v` switches to `sudo -v` and continues; any
other failure logs one warning, clears `enabled` and terminates. -/
def SudoSession.refresh_loop_go (cmd : List String) :
    List TickInput → LoopResult
  | [] => ⟨cmd, false, ⟨[], 0, 0⟩, none⟩
  | inp :: rest =>
    if inp.stopped then ⟨cmd, false, ⟨[], 0, 0⟩, some LoopExit.cancelled⟩
    else
      let result := inp.run cmd
      if result.returncode = 0 then
        let r := SudoSession.refresh_loop_go cmd rest
        ⟨r.refresh_cmd, r.disabled,
          ⟨cmd :: r.eff.runs, r.eff.warns, r.eff.fallbacks⟩, r.exit⟩
      else if SudoSession.is_option_unsupported (some result.stderr) &&
          cmd != ["sudo", "-v"] then
        let r := SudoSession.refresh_loop_go ["sudo", "-v"] rest
        ⟨r.refresh_cmd, r.disabled,
          ⟨cmd :: r.eff.runs, r.eff.warns, r.eff.fallbacks + 1⟩, r.exit⟩
      else
        ⟨cmd, true, ⟨[cmd], 1, 0⟩, some LoopExit.expired⟩

/-- `SudoSession._refresh_loop` entry: returns at once when no refresh
command is selected, otherwise runs the loop. -/
def SudoSession.refresh_loop (rc : Option (List String))
    (inputs : List TickInput) : Option LoopResult :=
  match rc with
  | none => none
  | some cmd => some (SudoSession.refresh_loop_go cmd inputs)

/-- The operations whose interleavings act on a session: a foreground
`ensure_active` or `close` call, or one wake-up of the background
refresh thread. -/
inductive Event
  | ensure (env : EnsureEnv)
  | closeEv (sudo_present : Bool)
  | tick (inp : TickInput)

/-- One atomic step of the interleaving semantics.  A `tick` does
nothing when no refresh task is live; otherwise it performs one
refresh-loop wake-up on the shared state (the loop reads and writes
`self._refresh_cmd` and `self._enabled`), decrementing `live_tasks`
when the loop body returns. -/
def SudoSession.step (s : SudoSession) : Event → SudoSession
  | Event.ensure env => (SudoSession.ensure_active env s).state
  | Event.closeEv p => (SudoSession.close p s).1
  | Event.tick inp =>
    if s.live_tasks = 0 then s
    else
      match s.refresh_cmd with
      | none => { s with live_tasks := s.live_tasks - 1 }
      | some cmd =>
        if inp.stopped then { s with live_tasks := s.live_tasks - 1 }
        else
          let result := inp.run cmd
          if result.returncode = 0 then s
          else if SudoSession.is_option_unsupported (some result.stderr) &&
              cmd != ["sudo", "-v"] then
            { s with refresh_cmd := some ["sudo", "-v"] }
          else
            { s with enabled := false, live_tasks := s.live_tasks - 1 }

/-- Run a finite interleaving of events from a state. -/
def SudoSession.run_events (s : SudoSession) (evs : List Event) : SudoSession :=
  evs.foldl SudoSession.step s

/-! ### Basic lemmas about the operations -/

lemma ensure_active_of_prompted (env : EnsureEnv) (s : SudoSession)
    (h : s.prompted = true) :
    SudoSession.ensure_active env s = ⟨s, ⟨0, 0, [], 0, false⟩, false⟩ := by
  unfold SudoSession.ensure_active
  simp [h]

lemma ensure_active_prompted_after (env : EnsureEnv) (s : SudoSession)
    (h : s.prompted = false) :
    (SudoSession.ensure_active env s).state.prompted = true := by
  unfold SudoSession.ensure_active
  rw [if_neg (by simp [h])]
  repeat' first | split | (simp only [])

lemma ensure_active_live_le (env : EnsureEnv) (s : SudoSession) :
    (SudoSession.ensure_active env s).state.live_tasks ≤ s.live_tasks + 1 := by
  unfold SudoSession.ensure_active
  repeat' first | split | (simp only [])
  all_goals omega

lemma close_live_le (p : Bool) (s : SudoSession) :
    (SudoSession.close p s).1.live_tasks ≤ s.live_tasks := by
  simp only [SudoSession.close]
  repeat' first | split | (simp only [])
  all_goals omega

lemma close_prompted (p : Bool) (s : SudoSession) :
    (SudoSession.close p s).1.prompted = s.prompted := by
  simp only [SudoSession.close]
  repeat' first | split | (simp only [])

lemma tick_live_le (s : SudoSession) (inp : TickInput) :
    (SudoSession.step s (Event.tick inp)).live_tasks ≤ s.live_tasks := by
  simp only [SudoSession.step]
  repeat' first | split | (simp only [])
  all_goals omega

lemma tick_prompted (s : SudoSession) (inp : TickInput) :
    (SudoSession.step s (Event.tick inp)).prompted = s.prompted := by
  simp only [SudoSession.step]
  repeat' first | split | (simp only [])

/-! ### The single-live-task invariant -/

/-- Inductive invariant of the interleaving semantics: never more than
one live refresh task, and none before the first prompt. -/
def SessionInv (s : SudoSession) : Prop :=
  s.live_tasks ≤ 1 ∧ (s.prompted = false → s.live_tasks = 0)

lemma step_preserves_inv (s : SudoSession) (e : Event) (h : SessionInv s) :
    SessionInv (SudoSession.step s e) := by
  obtain ⟨h1, h2⟩ := h
  cases e with
  | ensure env =>
    by_cases hp : s.prompted = true
    · simp only [SudoSession.step]
      rw [ensure_active_of_prompted env s hp]
      exact ⟨h1, h2⟩
    · have hp' : s.prompted = false := by simpa using hp
      have hlive := ensure_active_live_le env s
      have hpr := ensure_active_prompted_after env s hp'
      have hzero := h2 hp'
      constructor
      · simp only [SudoSession.step]
        omega
      · intro hc
        simp only [SudoSession.step] at hc
        rw [hpr] at hc
        exact absurd hc (by simp)
  | closeEv p =>
    have hle := close_live_le p s
    constructor
    · simp only [SudoSession.step]
      omega
    · intro hc
      simp only [SudoSession.step] at hc ⊢
      rw [close_prompted] at hc
      have := h2 hc
      omega
  | tick inp =>
    have hle := tick_live_le s inp
    constructor
    · omega
    · intro hc
      rw [tick_prompted] at hc
      have := h2 hc
      omega

lemma run_events_inv (evs : List Event) (s : SudoSession) (h : SessionInv s) :
    SessionInv (SudoSession.run_events s evs) := by
  induction evs generalizing s with
  | nil => exact h
  | cons e rest ih => exact ih _ (step_preserves_inv s e h)

/-- Claim C3: for every session and every reachable interleaving of
`ensure_active()`, `close()` and refresh-loop steps, at most one refresh
task of that session is live at any time. -/
theorem C3_at_most_one_live_task (n : Nat) (evs : List Event) :
    (SudoSession.run_events (SudoSession.init n) evs).live_tasks ≤ 1 :=
  (run_events_inv evs (SudoSession.init n)
    ⟨by simp [SudoSession.init], fun _ => rfl⟩).1

/-! ### Substring search agrees with `List.IsInfix` -/

lemma startsWithChars_iff (n h : List Char) :
    startsWithChars n h = true ↔ n <+: h := by
  induction n generalizing h with
  | nil => simp [startsWithChars]
  | cons a ns ih =>
    cases h with
    | nil => simp [startsWithChars]
    | cons b hs => simp [startsWithChars, List.cons_prefix_cons, ih]

lemma occursIn_iff (n h : List Char) :
    occursIn n h = true ↔ n <:+: h := by
  induction h with
  | nil => simp [occursIn, List.infix_nil, List.isEmpty_iff]
  | cons b hs ih => simp [occursIn, startsWithChars_iff, ih, List.infix_cons_iff]

lemma strContains_iff (hay nd : String) :
    strContains hay nd = true ↔ nd.toList <:+: hay.toList := by
  simp [strContains, occursIn_iff]

/-- The unsupported-option condition exactly as the spec words it: the
stderr text is present and non-empty, and its lowercased form contains
one of the two signature substrings. -/
def unsupportedSpec : Option String → Prop
  | none => False
  | some str =>
    str ≠ "" ∧
      ("unrecognized option".toList <:+: (strLower str).toList ∨
        "invalid option".toList <:+: (strLower str).toList)

/-- Claim C9: for every stderr value, the classifier returns true iff the
text is present and non-empty and, after lowercasing, contains the
substring "unrecognized option" or the substring "invalid option"; in
particular it returns false for None and for the empty string. -/
theorem C9_classifier_spec (s : Option String) :
    SudoSession.is_option_unsupported s = true ↔ unsupportedSpec s := by
  cases s with
  | none => simp [SudoSession.is_option_unsupported, unsupportedSpec]
  | some str =>
    by_cases h : str = ""
    · simp [SudoSession.is_option_unsupported, unsupportedSpec, h]
    · simp [SudoSession.is_option_unsupported, unsupportedSpec, h, strContains_iff]

/-! ### Refresh-loop behaviour -/

/-- Claim C4: if on some tick the refresh command exits non-zero and its
stderr does not carry the unsupported-option signature, then after that
tick `enabled` is false, exactly one warning is logged, the refresh loop
terminates as expired, and no further refresh command is ever executed
by that task (the whole run executes only that one command). -/
theorem C4_expiry_terminates (cmd : List String) (inp : TickInput)
    (rest : List TickInput)
    (hstop : inp.stopped = false)
    (hrc : (inp.run cmd).returncode ≠ 0)
    (hun : SudoSession.is_option_unsupported (some (inp.run cmd).stderr) = false) :
    SudoSession.refresh_loop_go cmd (inp :: rest) =
      ⟨cmd, true, ⟨[cmd], 1, 0⟩, some LoopExit.expired⟩ := by
  simp only [SudoSession.refresh_loop_go]
  simp [hstop, hrc, hun]

/-- A permission-style refresh failure used as concrete witness input. -/
def expiredTick : TickInput :=
  { stopped := false, run := fun _ => ⟨1, "sudo: a password is required"⟩ }

/-- Witness for C4: a concrete failing tick followed by two further
ticks; the run executes exactly one command and stops expired. -/
theorem C4_expiry_terminates_witness :
    SudoSession.refresh_loop_go ["sudo", "-n", "-v"]
        (expiredTick :: expiredTick :: [expiredTick]) =
      ⟨["sudo", "-n", "-v"], true, ⟨[["sudo", "-n", "-v"]], 1, 0⟩,
        some LoopExit.expired⟩ :=
  C4_expiry_terminates _ _ _ rfl (by decide) (by decide)

lemma fallbacks_interactive_zero (inputs : List TickInput) :
    (SudoSession.refresh_loop_go ["sudo", "-v"] inputs).eff.fallbacks = 0 := by
  induction inputs with
  | nil => rfl
  | cons inp rest ih =>
    simp only [SudoSession.refresh_loop_go]
    repeat' first | split | (simp only [])
    all_goals simp_all

lemma fallbacks_le_one (inputs : List TickInput) (cmd : List String) :
    (SudoSession.refresh_loop_go cmd inputs).eff.fallbacks ≤ 1 := by
  induction inputs generalizing cmd with
  | nil => simp [SudoSession.refresh_loop_go]
  | cons inp rest ih =>
    simp only [SudoSession.refresh_loop_go]
    split
    · simp
    · split
      · simpa using ih cmd
      · split
        · have h0 := fallbacks_interactive_zero rest
          simp only []
          omega
        · simp

/-- Claim C5: a tick failing with the unsupported-option signature while
the selected command is the non-interactive probe `sudo -n -v` switches
the selection to `sudo -v` and keeps running (the run continues exactly
as a fresh run of the remaining ticks under `sudo -v`, with no warning
and no disabling from this tick); an unsupported-option failure while
already on `sudo -v` terminates the task expired; and in any run the
in-loop fallback fires at most once. -/
theorem C5_fallback_once (inp : TickInput) (rest : List TickInput)
    (hstop : inp.stopped = false)
    (hrc : (inp.run ["sudo", "-n", "-v"]).returncode ≠ 0)
    (hun : SudoSession.is_option_unsupported
      (some (inp.run ["sudo", "-n", "-v"]).stderr) = true) :
    (SudoSession.refresh_loop_go ["sudo", "-n", "-v"] (inp :: rest) =
      (let r := SudoSession.refresh_loop_go ["sudo", "-v"] rest
       ⟨r.refresh_cmd, r.disabled,
         ⟨["sudo", "-n", "-v"] :: r.eff.runs, r.eff.warns, r.eff.fallbacks + 1⟩,
         r.exit⟩)) ∧
    (∀ (inp2 : TickInput) (rest2 : List TickInput),
      inp2.stopped = false →
      (inp2.run ["sudo", "-v"]).returncode ≠ 0 →
      SudoSession.is_option_unsupported
        (some (inp2.run ["sudo", "-v"]).stderr) = true →
      SudoSession.refresh_loop_go ["sudo", "-v"] (inp2 :: rest2) =
        ⟨["sudo", "-v"], true, ⟨[["sudo", "-v"]], 1, 0⟩, some LoopExit.expired⟩) ∧
    (∀ (cmd : List String) (inputs : List TickInput),
      (SudoSession.refresh_loop_go cmd inputs).eff.fallbacks ≤ 1) := by
  refine ⟨?_, ?_, ?_⟩
  · have hne : ((["sudo", "-n", "-v"] : List String) != ["sudo", "-v"]) = true := by
      decide
    simp only [SudoSession.refresh_loop_go]
    simp [hstop, hrc, hun, hne]
  · intro inp2 rest2 h1 h2 h3
    have he : ((["sudo", "-v"] : List String) != ["sudo", "-v"]) = false := by
      decide
    simp only [SudoSession.refresh_loop_go]
    simp [h1, h2, h3, he]
  · intro cmd inputs
    exact fallbacks_le_one inputs cmd

/-- An unsupported-option refresh failure used as concrete witness input. -/
def unsupportedTick : TickInput :=
  { stopped := false, run := fun _ => ⟨1, "sudo: unrecognized option: n"⟩ }

/-- Witness for C5 at a concrete unsupported-option tick with an empty
remainder: the run ends still alive on the fallback command. -/
theorem C5_fallback_once_witness :
    (SudoSession.refresh_loop_go ["sudo", "-n", "-v"] (unsupportedTick :: []) =
      (let r := SudoSession.refresh_loop_go ["sudo", "-v"] []
       ⟨r.refresh_cmd, r.disabled,
         ⟨["sudo", "-n", "-v"] :: r.eff.runs, r.eff.warns, r.eff.fallbacks + 1⟩,
         r.exit⟩)) ∧
    (∀ (inp2 : TickInput) (rest2 : List TickInput),
      inp2.stopped = false →
      (inp2.run ["sudo", "-v"]).returncode ≠ 0 →
      SudoSession.is_option_unsupported
        (some (inp2.run ["sudo", "-v"]).stderr) = true →
      SudoSession.refresh_loop_go ["sudo", "-v"] (inp2 :: rest2) =
        ⟨["sudo", "-v"], true, ⟨[["sudo", "-v"]], 1, 0⟩, some LoopExit.expired⟩) ∧
    (∀ (cmd : List String) (inputs : List TickInput),
      (SudoSession.refresh_loop_go cmd inputs).eff.fallbacks ≤ 1) :=
  C5_fallback_once unsupportedTick [] rfl (by decide) (by decide)

/-! ### Concrete collaborator environments for witnesses -/

/-- Tool present, consent declined. -/
def declineEnv : EnsureEnv :=
  { sudo_present := true
    consent := ConsentOutcome.no
    priming := none
    select_run := fun _ => ⟨1, ""⟩ }

/-- Tool present, consent prompt interrupted by the user. -/
def interruptEnv : EnsureEnv :=
  { sudo_present := true
    consent := ConsentOutcome.interrupted
    priming := none
    select_run := fun _ => ⟨1, ""⟩ }

/-- Tool absent from PATH. -/
def absentEnv : EnsureEnv :=
  { sudo_present := false
    consent := ConsentOutcome.no
    priming := none
    select_run := fun _ => ⟨1, ""⟩ }

/-- Tool present, consent given, priming succeeds, probe refresh works. -/
def successEnv : EnsureEnv :=
  { sudo_present := true
    consent := ConsentOutcome.yes
    priming := some ⟨0, ""⟩
    select_run := fun _ => ⟨0, ""⟩ }

/-- Tool present, consent given, priming succeeds, but every candidate
refresh command fails without the unsupported-option signature, so no
refresh command gets selected. -/
def noKeepaliveEnv : EnsureEnv :=
  { sudo_present := true
    consent := ConsentOutcome.yes
    priming := some ⟨0, ""⟩
    select_run := fun _ => ⟨1, "sudo: a password is required"⟩ }

/-- A session object on which the consent prompt has already happened. -/
def promptedSession : SudoSession :=
  { SudoSession.init 60 with prompted := true }

/-- A session in the fully primed state: prompted, enabled, with a live
refresh thread. -/
def activeSession : SudoSession :=
  { refresh_interval := 60
    prompted := true
    enabled := true
    stop_event := false
    thread_obj := true
    live_tasks := 1
    refresh_cmd := some ["sudo", "-n", "-v"] }

/-! ### Close keeps the prompted-once flag (C1) -/

lemma close_refresh_cmd (p : Bool) (s : SudoSession) :
    (SudoSession.close p s).1.refresh_cmd = s.refresh_cmd := by
  simp only [SudoSession.close]
  repeat' first | split | (simp only [])

/-- Claim C1 (counterexample): after ensure_active (consent declined)
and close, the prompted flag still holds - it is NOT reset to its
freshly-constructed value false - and a subsequent ensure_active on the
same object issues no consent prompt and no priming call, i.e. it does
not go through the prompt-and-prime path again. -/
theorem C1_counterexample :
    (SudoSession.init 60).prompted = false ∧
    (SudoSession.close true
        (SudoSession.ensure_active declineEnv (SudoSession.init 60)).state).1.prompted
      = true ∧
    (SudoSession.ensure_active declineEnv
        (SudoSession.close true
          (SudoSession.ensure_active declineEnv
            (SudoSession.init 60)).state).1).eff.prompts = 0 ∧
    (SudoSession.ensure_active declineEnv
        (SudoSession.close true
          (SudoSession.ensure_active declineEnv
            (SudoSession.init 60)).state).1).eff.priming_runs = 0 := by
  decide

/-- Claim C1 (amended): close() resets `enabled`, the thread reference
and the stop event, but the prompted-once flag and the refresh-command
selection keep their values across close; consequently a subsequent
ensure_active() on the same already-prompted object returns immediately
with no prompt and no priming, instead of re-running the
prompt-and-prime path. -/
theorem C1_close_keeps_prompted (s : SudoSession) (env : EnsureEnv)
    (hp : s.prompted = true) :
    (SudoSession.close true s).1.enabled = false ∧
    (SudoSession.close true s).1.thread_obj = false ∧
    (SudoSession.close true s).1.stop_event = false ∧
    (SudoSession.close true s).1.prompted = s.prompted ∧
    (SudoSession.close true s).1.refresh_cmd = s.refresh_cmd ∧
    SudoSession.ensure_active env (SudoSession.close true s).1 =
      ⟨(SudoSession.close true s).1, ⟨0, 0, [], 0, false⟩, false⟩ := by
  have h1 : (SudoSession.close true s).1.prompted = true := by
    rw [close_prompted]; exact hp
  exact ⟨rfl, rfl, rfl, close_prompted true s, close_refresh_cmd true s,
    ensure_active_of_prompted env _ h1⟩

/-- Witness for the amended C1 at a concrete prompted session. -/
theorem C1_close_keeps_prompted_witness :
    (SudoSession.close true promptedSession).1.enabled = false ∧
    (SudoSession.close true promptedSession).1.thread_obj = false ∧
    (SudoSession.close true promptedSession).1.stop_event = false ∧
    (SudoSession.close true promptedSession).1.prompted = promptedSession.prompted ∧
    (SudoSession.close true promptedSession).1.refresh_cmd
      = promptedSession.refresh_cmd ∧
    SudoSession.ensure_active declineEnv (SudoSession.close true promptedSession).1 =
      ⟨(SudoSession.close true promptedSession).1, ⟨0, 0, [], 0, false⟩, false⟩ :=
  C1_close_keeps_prompted promptedSession declineEnv (by decide)

/-! ### Error propagation of ensure_active (C2) -/

/-- Claim C2 (counterexample): when the user interrupt arrives during
the consent prompt itself, ensure_active does NOT return normally - the
KeyboardInterrupt escapes to the caller, because only the priming
subprocess call sits inside the try/except block. -/
theorem C2_counterexample :
    (SudoSession.ensure_active interruptEnv (SudoSession.init 60)).raised = true := by
  decide

/-- Claim C2 (amended): for every collaborator outcome other than an
interrupt during the consent prompt itself (tool absent, consent
declined, interrupt during the priming subprocess, priming non-zero
exit, and the success paths), ensure_active returns normally without
raising; and the session ends enabled only when consent was given and
priming exited zero, so every failure path leaves it disabled. -/
theorem C2_no_raise_unless_consent_interrupted (n : Nat) (env : EnsureEnv)
    (h : env.consent ≠ ConsentOutcome.interrupted) :
    (SudoSession.ensure_active env (SudoSession.init n)).raised = false ∧
    ((SudoSession.ensure_active env (SudoSession.init n)).state.enabled = true →
      env.consent = ConsentOutcome.yes ∧
      ∃ r, env.priming = some r ∧ r.returncode = 0) := by
  have hp : (SudoSession.init n).prompted = false := rfl
  unfold SudoSession.ensure_active
  rw [if_neg (by simp [hp])]
  cases hsp : env.sudo_present with
  | false => simp [SudoSession.init]
  | true =>
    rw [if_neg (by simp)]
    cases hc : env.consent with
    | interrupted => exact absurd hc h
    | no => simp [SudoSession.init]
    | yes =>
      simp only []
      cases hpr : env.priming with
      | none => simp [SudoSession.init]
      | some r =>
        simp only []
        by_cases hrc : r.returncode = 0
        · rw [if_neg (by simp [hrc])]
          refine ⟨?_, fun _ => ⟨by simp, r, by simp, hrc⟩⟩
          repeat' first | split | (simp only [])
        · rw [if_pos hrc]
          simp [SudoSession.init]

/-- Witness for the amended C2 at the concrete declined-consent outcome. -/
theorem C2_no_raise_witness :
    (SudoSession.ensure_active declineEnv (SudoSession.init 60)).raised = false ∧
    ((SudoSession.ensure_active declineEnv (SudoSession.init 60)).state.enabled = true →
      declineEnv.consent = ConsentOutcome.yes ∧
      ∃ r, declineEnv.priming = some r ∧ r.returncode = 0) :=
  C2_no_raise_unless_consent_interrupted 60 declineEnv (by decide)

/-! ### Prompt idempotence (C6) -/

lemma ensure_active_first_effects (env : EnsureEnv) (s : SudoSession)
    (hp : s.prompted = false) (hsp : env.sudo_present = true) :
    (SudoSession.ensure_active env s).eff.prompts = 1 ∧
    (SudoSession.ensure_active env s).eff.priming_runs ≤ 1 := by
  unfold SudoSession.ensure_active
  rw [if_neg (by simp [hp]), if_neg (by simp [hsp])]
  repeat' first | split | (simp only [])
  all_goals simp

/-- Claim C6: calling ensure_active twice in a row (tool present) issues
exactly one consent prompt - all of it on the first call - and at most
one priming subprocess call in total; the second call is an exact no-op
returning the first call's state with zero effects, regardless of how
the first call ended. -/
theorem C6_idempotent_prompt (n : Nat) (env1 env2 : EnsureEnv)
    (h : env1.sudo_present = true) :
    (SudoSession.ensure_active env1 (SudoSession.init n)).eff.prompts = 1 ∧
    (SudoSession.ensure_active env2
      (SudoSession.ensure_active env1 (SudoSession.init n)).state).eff.prompts = 0 ∧
    (SudoSession.ensure_active env1 (SudoSession.init n)).eff.priming_runs +
      (SudoSession.ensure_active env2
        (SudoSession.ensure_active env1 (SudoSession.init n)).state).eff.priming_runs
      ≤ 1 ∧
    SudoSession.ensure_active env2
        (SudoSession.ensure_active env1 (SudoSession.init n)).state =
      ⟨(SudoSession.ensure_active env1 (SudoSession.init n)).state,
        ⟨0, 0, [], 0, false⟩, false⟩ := by
  have hp2 : (SudoSession.ensure_active env1 (SudoSession.init n)).state.prompted
      = true := ensure_active_prompted_after env1 _ rfl
  have hno := ensure_active_of_prompted env2 _ hp2
  have hfst := ensure_active_first_effects env1 (SudoSession.init n) rfl h
  refine ⟨hfst.1, ?_, ?_, hno⟩
  · rw [hno]
  · rw [hno]
    simpa using hfst.2

/-- Witness for C6: first call succeeds fully, second call declines. -/
theorem C6_idempotent_prompt_witness :
    (SudoSession.ensure_active successEnv (SudoSession.init 60)).eff.prompts = 1 ∧
    (SudoSession.ensure_active declineEnv
      (SudoSession.ensure_active successEnv (SudoSession.init 60)).state).eff.prompts
      = 0 ∧
    (SudoSession.ensure_active successEnv (SudoSession.init 60)).eff.priming_runs +
      (SudoSession.ensure_active declineEnv
        (SudoSession.ensure_active successEnv
          (SudoSession.init 60)).state).eff.priming_runs ≤ 1 ∧
    SudoSession.ensure_active declineEnv
        (SudoSession.ensure_active successEnv (SudoSession.init 60)).state =
      ⟨(SudoSession.ensure_active successEnv (SudoSession.init 60)).state,
        ⟨0, 0, [], 0, false⟩, false⟩ :=
  C6_idempotent_prompt 60 successEnv declineEnv (by decide)

/-! ### Tool absence short-circuits (C8) -/

/-- Claim C8: if the privilege-escalation tool is absent from PATH, then
ensure_active returns with zero effects (no prompt, no priming call, no
trial runs, no warning, no thread start) and without raising, close
returns its argument untouched with no revocation and no join, and
`enabled` stays false. -/
theorem C8_tool_absent (env : EnsureEnv) (s : SudoSession)
    (habs : env.sudo_present = false) (hen : s.enabled = false) :
    (SudoSession.ensure_active env s).eff = ⟨0, 0, [], 0, false⟩ ∧
    (SudoSession.ensure_active env s).raised = false ∧
    (SudoSession.ensure_active env s).state.enabled = false ∧
    SudoSession.close false s = (s, ⟨0, false⟩) := by
  unfold SudoSession.ensure_active
  by_cases hp : s.prompted = true
  · rw [if_pos hp]
    exact ⟨rfl, rfl, hen, rfl⟩
  · rw [if_neg hp, if_pos habs]
    exact ⟨rfl, rfl, hen, rfl⟩

/-- Witness for C8 on a fresh session with the tool absent. -/
theorem C8_tool_absent_witness :
    (SudoSession.ensure_active absentEnv (SudoSession.init 60)).eff
      = ⟨0, 0, [], 0, false⟩ ∧
    (SudoSession.ensure_active absentEnv (SudoSession.init 60)).raised = false ∧
    (SudoSession.ensure_active absentEnv (SudoSession.init 60)).state.enabled
      = false ∧
    SudoSession.close false (SudoSession.init 60) = (SudoSession.init 60, ⟨0, false⟩) :=
  C8_tool_absent absentEnv (SudoSession.init 60) (by decide) (by decide)

/-! ### Double close (C7) -/

lemma close_revokes_le (p : Bool) (s : SudoSession) :
    (SudoSession.close p s).2.revokes ≤ 1 := by
  simp only [SudoSession.close]
  repeat' first | split | (simp only [])
  all_goals simp

lemma close_of_inactive (p : Bool) (s : SudoSession)
    (he : s.enabled = false) (ht : s.thread_obj = false) :
    (SudoSession.close p s).2 = ⟨0, false⟩ := by
  simp only [SudoSession.close]
  cases p with
  | false => simp
  | true =>
    rw [if_neg (by simp)]
    simp [ht, he]

/-- Claim C7: close is safe to call twice and safe on a never-primed
session: the two calls together issue at most one revocation; when the
first close actually ran (tool present) it leaves `enabled` false and
no thread reference, so the second close performs no revocation and no
join; and closing a fresh session revokes nothing and joins nothing.
All operations are total functions, so no error can be produced. -/
theorem C7_double_close_safe (n : Nat) (p1 p2 : Bool) (s : SudoSession) :
    (SudoSession.close p1 s).2.revokes +
      (SudoSession.close p2 (SudoSession.close p1 s).1).2.revokes ≤ 1 ∧
    (p1 = true →
      (SudoSession.close p1 s).1.enabled = false ∧
      (SudoSession.close p1 s).1.thread_obj = false ∧
      (SudoSession.close p2 (SudoSession.close p1 s).1).2 = ⟨0, false⟩) ∧
    (SudoSession.close p1 (SudoSession.init n)).2 = ⟨0, false⟩ := by
  refine ⟨?_, ?_, close_of_inactive p1 _ rfl rfl⟩
  · cases p1 with
    | false =>
      have h2 := close_revokes_le p2 (SudoSession.close false s).1
      have h1 : (SudoSession.close false s).2.revokes = 0 := rfl
      omega
    | true =>
      have h1 := close_revokes_le true s
      have h2 : (SudoSession.close p2 (SudoSession.close true s).1).2 = ⟨0, false⟩ :=
        close_of_inactive p2 _ rfl rfl
      rw [h2]
      simpa using h1
  · intro hp1
    subst hp1
    exact ⟨rfl, rfl, close_of_inactive p2 _ rfl rfl⟩

/-- Witness for C7 at a concrete enabled session with a live thread. -/
theorem C7_double_close_safe_witness :
    (SudoSession.close true activeSession).2.revokes +
      (SudoSession.close true (SudoSession.close true activeSession).1).2.revokes
      ≤ 1 ∧
    (true = true →
      (SudoSession.close true activeSession).1.enabled = false ∧
      (SudoSession.close true activeSession).1.thread_obj = false ∧
      (SudoSession.close true (SudoSession.close true activeSession).1).2
        = ⟨0, false⟩) ∧
    (SudoSession.close true (SudoSession.init 60)).2 = ⟨0, false⟩ :=
  C7_double_close_safe 60 true true activeSession

/-! ### Enabled without keep-alive (C10) -/

/-- Claim C10: after a successful priming, if the setup-time
refresh-command selection fails, ensure_active returns with `enabled`
still true but with no refresh task started and no refresh command
selected - the session reports itself cached yet has no keep-alive -
and logs the one warning about automatic refresh being unavailable. -/
theorem C10_enabled_without_keepalive (env : EnsureEnv) (s : SudoSession)
    (hp : s.prompted = false) (hsp : env.sudo_present = true)
    (hc : env.consent = ConsentOutcome.yes)
    (r : RunResult) (hpr : env.priming = some r) (hrc : r.returncode = 0)
    (hsel : (SudoSession.select_refresh_command env.select_run).1 = none) :
    (SudoSession.ensure_active env s).state.enabled = true ∧
    (SudoSession.ensure_active env s).eff.started = false ∧
    (SudoSession.ensure_active env s).state.live_tasks = s.live_tasks ∧
    (SudoSession.ensure_active env s).state.thread_obj = s.thread_obj ∧
    (SudoSession.ensure_active env s).state.refresh_cmd = none ∧
    (SudoSession.ensure_active env s).eff.warns = 1 := by
  unfold SudoSession.ensure_active
  rw [if_neg (by simp [hp]), if_neg (by simp [hsp])]
  cases hc2 : env.consent with
  | interrupted => rw [hc2] at hc; exact absurd hc (by simp)
  | no => rw [hc2] at hc; exact absurd hc (by simp)
  | yes =>
    simp only []
    cases hpr2 : env.priming with
    | none => rw [hpr2] at hpr; exact absurd hpr (by simp)
    | some r2 =>
      simp only []
      rw [hpr2] at hpr
      injection hpr with hr2
      subst hr2
      rw [if_neg (by simp [hrc])]
      repeat' first | split | (simp only [])
      all_goals simp_all

/-- Witness for C10: priming succeeds but both selection candidates are
rejected (the probe fails without the unsupported-option signature), so
the session is enabled with no thread. -/
theorem C10_enabled_without_keepalive_witness :
    (SudoSession.ensure_active noKeepaliveEnv (SudoSession.init 60)).state.enabled
      = true ∧
    (SudoSession.ensure_active noKeepaliveEnv (SudoSession.init 60)).eff.started
      = false ∧
    (SudoSession.ensure_active noKeepaliveEnv (SudoSession.init 60)).state.live_tasks
      = (SudoSession.init 60).live_tasks ∧
    (SudoSession.ensure_active noKeepaliveEnv (SudoSession.init 60)).state.thread_obj
      = (SudoSession.init 60).thread_obj ∧
    (SudoSession.ensure_active noKeepaliveEnv (SudoSession.init 60)).state.refresh_cmd
      = none ∧
    (SudoSession.ensure_active noKeepaliveEnv (SudoSession.init 60)).eff.warns = 1 :=
  C10_enabled_without_keepalive noKeepaliveEnv (SudoSession.init 60) rfl rfl rfl
    ⟨0, ""⟩ rfl rfl (by decide)
